import Mathlib

/-!
Verification of the To-Do-List-Web-App task store (`script.js`, class `TodoApp`)
against its natural-language specification.

The JavaScript class is shallowly embedded: the mutable fields of `TodoApp`
become an explicit `AppState` record, `localStorage` becomes a `Storage`
record carried inside the state, each method becomes a state-passing function,
and `new Date().toISOString()` becomes an explicit `now : Nat` parameter.
Each method's observable outcome (which branch ran, which notification it
showed, which task it produced) is returned as a small result type mirroring
the method's branches.
-/

namespace TodoApp

/-- A task record, from `addTask` (script.js lines 92-98): `id`, `text`,
`completed`, `createdAt` (timestamp, modelled as `Nat`), `completedAt`
(timestamp or `null`, modelled as `Option Nat`). -/
structure Task where
  id : Nat
  text : String
  completed : Bool
  createdAt : Nat
  completedAt : Option Nat
deriving DecidableEq

/-- The value stored under the `todoApp_tasks` key: either a JSON string that
parses back to a task list (everything `saveTasksToStorage` writes), or a
string on which `JSON.parse` throws (external corruption). -/
inductive StoredTasks where
  | parsable (ts : List Task)
  | unparsable
deriving DecidableEq

/-- The relevant slice of `localStorage`: the `todoApp_tasks` entry and the
`todoApp_taskIdCounter` entry, each possibly absent. -/
structure Storage where
  tasksKey : Option StoredTasks
  counterKey : Option Nat
deriving DecidableEq

/-- The mutable state of the `TodoApp` instance (constructor lines 9-12),
together with the backing storage. -/
structure AppState where
  tasks : List Task
  currentFilter : String
  currentSearchTerm : String
  taskIdCounter : Nat
  storage : Storage
deriving DecidableEq

/-- Notification severity, the second argument of `showNotification`. -/
inductive NotifKind where
  | success
  | warning
  | error
deriving DecidableEq

/-- A `showNotification(message, kind)` call. -/
structure Notif where
  message : String
  kind : NotifKind
deriving DecidableEq

/-- `needle` starts `hay` (helper for the JS `String.prototype.includes`). -/
def listStartsWith : List Char → List Char → Bool
  | [], _ => true
  | _ :: _, [] => false
  | a :: as, b :: bs => a == b && listStartsWith as bs

/-- `needle` occurs contiguously in `hay`. -/
def listHasSub (needle : List Char) : List Char → Bool
  | [] => needle.isEmpty
  | c :: rest => listStartsWith needle (c :: rest) || listHasSub needle rest

/-- JS `hay.includes(needle)`. -/
def jsIncludes (hay needle : String) : Bool :=
  listHasSub needle.toList hay.toList

/-- JS `s.trim()`: strip leading and trailing whitespace. -/
def jsTrim (s : String) : String :=
  String.mk (((s.toList.dropWhile Char.isWhitespace).reverse.dropWhile
    Char.isWhitespace).reverse)

/-- JS `s.toLowerCase()`: lowercase every character. -/
def jsToLower (s : String) : String :=
  String.mk (s.toList.map Char.toLower)

/-- Replace the first task whose `id` matches (JS `Array.prototype.find`
followed by in-place mutation of the found object). -/
def updateFirstTask (taskId : Nat) (f : Task → Task) : List Task → List Task
  | [] => []
  | t :: ts => if t.id == taskId then f t :: ts else t :: updateFirstTask taskId f ts

/-- `saveTasksToStorage` (lines 433-441), success path: writes the serialized
task list and the counter to the two storage keys. -/
def saveTasksToStorage (s : AppState) : AppState :=
  { s with storage := { tasksKey := some (.parsable s.tasks),
                        counterKey := some s.taskIdCounter } }

/-- Outcome of `addTask`: which branch ran.  The two warning constructors are
the `showNotification(..., 'warning')` early returns (lines 82-90); `added`
carries the created task (success notification, line 107). -/
inductive AddResult where
  | emptyWarning
  | tooLongWarning
  | added (t : Task)
deriving DecidableEq

/-- `addTask` (lines 79-108): trims the input; warns and leaves the state
alone when the trimmed text is empty or longer than 200 characters; otherwise
builds the task from the current counter, post-increments the counter,
prepends (`unshift`), and saves. -/
def addTask (input : String) (now : Nat) (s : AppState) : AppState × AddResult :=
  let text := jsTrim input
  if text = "" then
    (s, .emptyWarning)
  else if text.length > 200 then
    (s, .tooLongWarning)
  else
    let task : Task :=
      { id := s.taskIdCounter, text := text, completed := false,
        createdAt := now, completedAt := none }
    (saveTasksToStorage
      { s with tasks := task :: s.tasks, taskIdCounter := s.taskIdCounter + 1 },
     .added task)

/-- Outcome of the synchronous part of `deleteTask`: `scheduled` when the DOM
row exists and the 300 ms `setTimeout` callback was registered, `ignored`
when no row with that id exists (lines 113-128). -/
inductive DeleteResult where
  | scheduled
  | ignored
deriving DecidableEq

/-- The completion + search projection, `getFilteredTasks` (lines 243-261).
Any `currentFilter` other than `'completed'`/`'pending'` leaves the list
unfiltered; a falsy (empty) `currentSearchTerm` skips the search filter. -/
def getFilteredTasks (s : AppState) : List Task :=
  let filteredTasks := s.tasks
  let filteredTasks :=
    if s.currentFilter = "completed" then
      filteredTasks.filter (fun t => t.completed)
    else if s.currentFilter = "pending" then
      filteredTasks.filter (fun t => !t.completed)
    else filteredTasks
  if s.currentSearchTerm ≠ "" then
    filteredTasks.filter (fun t => jsIncludes (jsToLower t.text) s.currentSearchTerm)
  else filteredTasks

/-- The synchronous part of `deleteTask` (lines 113-118): looks up the DOM
row `[data-task-id=...]` — present exactly for the currently rendered
(filtered) tasks — and, if found, only schedules the deferred removal; the
task array is untouched when the call returns. -/
def deleteTask (taskId : Nat) (s : AppState) : AppState × DeleteResult :=
  if (getFilteredTasks s).any (fun t => t.id == taskId) then
    (s, .scheduled)
  else
    (s, .ignored)

/-- The body of the `setTimeout` callback inside `deleteTask` (lines 119-126):
filters out every task with the given id and saves. -/
def deleteTaskLater (taskId : Nat) (s : AppState) : AppState :=
  saveTasksToStorage { s with tasks := s.tasks.filter (fun t => !(t.id == taskId)) }

/-- Outcome of `toggleTask`: `toggled` with the updated task (success
notification), or `ignored` — the `find` missed and the method fell through
with no notification and no save (lines 133-147). -/
inductive ToggleResult where
  | toggled (t : Task)
  | ignored
deriving DecidableEq

/-- The in-place mutation `toggleTask` applies to the found task: flip
`completed`, then set `completedAt` to now when the new value is true and to
null when it is false (lines 137-138). -/
def toggleUpdate (now : Nat) (t : Task) : Task :=
  let c := !t.completed
  { t with completed := c, completedAt := if c then some now else none }

/-- `toggleTask` (lines 133-147): finds the first task with the id, flips it
in place, saves; does nothing at all when the id is absent. -/
def toggleTask (taskId now : Nat) (s : AppState) : AppState × ToggleResult :=
  match s.tasks.find? (fun t => t.id == taskId) with
  | none => (s, .ignored)
  | some t =>
    (saveTasksToStorage
      { s with tasks := updateFirstTask taskId (toggleUpdate now) s.tasks },
     .toggled (toggleUpdate now t))

/-- Outcome of `saveEditTask`: the two validation warnings (lines 179-189),
`updated` with the edited task (success), or `ignored` — valid text but the
`find` missed, so the method fell through silently (lines 191-198). -/
inductive EditResult where
  | emptyWarning
  | tooLongWarning
  | updated (t : Task)
  | ignored
deriving DecidableEq

/-- `saveEditTask` (lines 176-199): trims; warns (and cancels the DOM edit)
on empty or over-200 text without touching the task array; otherwise replaces
the text of the first task with the id and saves; silently does nothing when
the id is absent. -/
def saveEditTask (taskId : Nat) (newText : String) (s : AppState) : AppState × EditResult :=
  let trimmedText := jsTrim newText
  if trimmedText = "" then
    (s, .emptyWarning)
  else if trimmedText.length > 200 then
    (s, .tooLongWarning)
  else
    match s.tasks.find? (fun t => t.id == taskId) with
    | none => (s, .ignored)
    | some t =>
      (saveTasksToStorage
        { s with tasks := updateFirstTask taskId (fun u => { u with text := trimmedText }) s.tasks },
       .updated { t with text := trimmedText })

/-- `setFilter` (lines 226-238): stores the argument unconditionally (the
rest of the method only repaints filter buttons and re-renders). -/
def setFilter (f : String) (s : AppState) : AppState :=
  { s with currentFilter := f }

/-- The search-input handler (lines 55-58): stores the lowercased input. -/
def setSearchTerm (term : String) (s : AppState) : AppState :=
  { s with currentSearchTerm := jsToLower term }

/-- `loadTasksFromStorage` (lines 446-464): reads both keys inside `try`;
an unparsable tasks entry throws from `JSON.parse`, and the `catch` shows an
error notification and resets to `[]` / counter 1; a parsable entry is
assigned as-is; a present counter entry is assigned as-is; absent entries
leave the constructor defaults with no notification. -/
def loadTasksFromStorage (s : AppState) : AppState × List Notif :=
  match s.storage.tasksKey with
  | some .unparsable =>
    ({ s with tasks := [], taskIdCounter := 1 },
     [{ message := "Failed to load saved tasks!", kind := .error }])
  | some (.parsable ts) =>
    match s.storage.counterKey with
    | some n => ({ s with tasks := ts, taskIdCounter := n }, [])
    | none => ({ s with tasks := ts }, [])
  | none =>
    match s.storage.counterKey with
    | some n => ({ s with taskIdCounter := n }, [])
    | none => (s, [])

/-- The field initializers of the constructor (lines 9-12), before `init()`
runs, over a given backing storage. -/
def mkInitial (st : Storage) : AppState :=
  { tasks := [], currentFilter := "all", currentSearchTerm := "",
    taskIdCounter := 1, storage := st }

/-- Constructor followed by the hydration step of `init()` (line 34). -/
def appStart (st : Storage) : AppState :=
  (loadTasksFromStorage (mkInitial st)).1

/-- One user-level operation on the running app.  `reload` models closing the
page and constructing a fresh `TodoApp` over the current `localStorage`
(constructor + `loadTasksFromStorage`); `delete` models the full removal,
deferred callback included. -/
inductive Op where
  | add (text : String) (now : Nat)
  | toggle (id now : Nat)
  | edit (id : Nat) (text : String)
  | delete (id : Nat)
  | setF (f : String)
  | setTerm (t : String)
  | reload
deriving DecidableEq

/-- Apply one operation; the second component lists the task ids issued by
this step (nonempty only for a successful add). -/
def applyOp : Op → AppState → AppState × List Nat
  | .add text now, s =>
    let (s2, r) := addTask text now s
    (s2, match r with | .added t => [t.id] | _ => [])
  | .toggle id now, s => ((toggleTask id now s).1, [])
  | .edit id text, s => ((saveEditTask id text s).1, [])
  | .delete id, s =>
    let (s2, r) := deleteTask id s
    (match r with | .scheduled => deleteTaskLater id s2 | .ignored => s2, [])
  | .setF f, s => (setFilter f s, [])
  | .setTerm t, s => (setSearchTerm t s, [])
  | .reload, s => (appStart s.storage, [])

/-- Run a sequence of operations, collecting every issued task id in order. -/
def runOps : List Op → AppState → AppState × List Nat
  | [], s => (s, [])
  | op :: ops, s =>
    let (s2, ids) := applyOp op s
    let (s3, ids2) := runOps ops s2
    (s3, ids ++ ids2)

/-- Modelled from the spec (claim C6's wording): a task passes when it passes
both the completion filter (`all` passes everything, `completed` keeps
`completed == true`, `pending` keeps `completed == false`) and the search
filter (case-insensitive substring match of the stored search term against
the text, the empty term passing everything). -/
def specViewPass (filter term : String) (t : Task) : Bool :=
  (if filter = "completed" then t.completed
   else if filter = "pending" then !t.completed
   else true)
  && (term = "" || jsIncludes (jsToLower t.text) term)

/-- Whether an `addTask` outcome surfaced a validation warning
(`showNotification(..., 'warning')`). -/
def AddResult.warns : AddResult → Bool
  | .emptyWarning => true
  | .tooLongWarning => true
  | .added _ => false

/-- Whether a `saveEditTask` outcome surfaced a validation warning. -/
def EditResult.warns : EditResult → Bool
  | .emptyWarning => true
  | .tooLongWarning => true
  | .updated _ => false
  | .ignored => false

/-- Whether a `toggleTask` outcome surfaced any warning or error
notification (no branch of `toggleTask` shows one). -/
def ToggleResult.warns : ToggleResult → Bool
  | .toggled _ => false
  | .ignored => false

/-- Whether the synchronous part of `deleteTask` surfaced any warning or
error notification (no branch does). -/
def DeleteResult.warns : DeleteResult → Bool
  | .scheduled => false
  | .ignored => false

/-! ### Helper lemmas -/

/-- The filtered view is a sublist of the task array (both stages of
`getFilteredTasks` only drop elements). -/
theorem getFilteredTasks_sublist (s : AppState) :
    (getFilteredTasks s).Sublist s.tasks := by
  unfold getFilteredTasks
  dsimp only
  split
  · split
    · exact (List.filter_sublist _).trans (List.filter_sublist _)
    · split
      · exact (List.filter_sublist _).trans (List.filter_sublist _)
      · exact List.filter_sublist _
  · split
    · exact List.filter_sublist _
    · split
      · exact List.filter_sublist _
      · exact List.Sublist.refl _

/-- `find?` after `updateFirstTask` on the same id: the update is applied to
the found task, provided the update preserves ids. -/
theorem find?_updateFirstTask (taskId : Nat) (f : Task → Task) (l : List Task)
    (hf : ∀ t, (f t).id = t.id) :
    (updateFirstTask taskId f l).find? (fun u => u.id == taskId) =
      (l.find? (fun u => u.id == taskId)).map f := by
  induction l with
  | nil => simp [updateFirstTask]
  | cons a l ih =>
    by_cases h : a.id == taskId
    · rw [updateFirstTask, if_pos h]
      simp [List.find?, hf, h]
    · rw [updateFirstTask, if_neg h]
      simp only [List.find?, Bool.not_eq_true] at *
      simp [h, ih]

/-- Under unique ids, replacing the first matching task is the same as the
pointwise update of every matching task. -/
theorem updateFirstTask_eq_map (taskId : Nat) (f : Task → Task) (l : List Task)
    (h : (l.map Task.id).Nodup) :
    updateFirstTask taskId f l = l.map (fun t => if t.id = taskId then f t else t) := by
  induction l with
  | nil => rfl
  | cons a l ih =>
    rw [List.map_cons, List.nodup_cons] at h
    obtain ⟨ha, hl⟩ := h
    by_cases hid : a.id = taskId
    · rw [updateFirstTask, if_pos (by simpa using hid), List.map_cons, if_pos hid]
      have : ∀ t ∈ l, (if t.id = taskId then f t else t) = t := by
        intro t ht
        rw [if_neg]
        intro hc
        have hm : t.id ∈ List.map Task.id l := List.mem_map_of_mem Task.id ht
        rw [hc, ← hid] at hm
        exact ha hm
      rw [List.map_congr_left this]
      simp
    · rw [updateFirstTask, if_neg (by simpa using hid), List.map_cons, if_neg hid, ih hl]

/-! ### Claim theorems -/

/-- C1: `addTask` trims its input; if the trimmed text is empty or longer
than 200 characters it surfaces a validation warning and the state —
task list, counter, storage — is unchanged; otherwise it creates a task with
`id = counter` (incrementing the counter), `createdAt = now`,
`completed = false`, no `completedAt`, prepends it, persists both keys, and
its outcome carries exactly the created task. -/
theorem addTask_spec (s : AppState) (input : String) (now : Nat) :
    (jsTrim input = "" ∨ 200 < (jsTrim input).length →
      addTask input now s =
        (s, if jsTrim input = "" then .emptyWarning else .tooLongWarning)) ∧
    (jsTrim input ≠ "" → (jsTrim input).length ≤ 200 →
      addTask input now s =
        ({ tasks := { id := s.taskIdCounter, text := jsTrim input, completed := false,
                      createdAt := now, completedAt := none } :: s.tasks,
           currentFilter := s.currentFilter,
           currentSearchTerm := s.currentSearchTerm,
           taskIdCounter := s.taskIdCounter + 1,
           storage := { tasksKey := some (.parsable
                          ({ id := s.taskIdCounter, text := jsTrim input, completed := false,
                             createdAt := now, completedAt := none } :: s.tasks)),
                        counterKey := some (s.taskIdCounter + 1) } },
         .added { id := s.taskIdCounter, text := jsTrim input, completed := false,
                  createdAt := now, completedAt := none })) := by
  constructor
  · intro h
    rcases h with h | h
    · simp [addTask, h]
    · have hne : ¬ jsTrim input = "" := by
        intro he
        rw [he] at h
        exact absurd h (by decide)
      rw [addTask]
      simp only [hne, if_false, if_neg, h, gt_iff_lt, if_pos]
  · intro h1 h2
    rw [addTask]
    have h2' : ¬ (jsTrim input).length > 200 := by omega
    simp only [h1, if_false, h2', if_neg, saveTasksToStorage]

/-- C1 witness: adding `" hi "` to a fresh store trims to `"hi"`, issues
id 1, prepends, bumps the counter to 2 and persists. -/
theorem addTask_spec_witness :
    (jsTrim " hi " ≠ "" ∧ (jsTrim " hi ").length ≤ 200) ∧
    addTask " hi " 5 (mkInitial { tasksKey := none, counterKey := none }) =
      ({ tasks := [{ id := 1, text := "hi", completed := false, createdAt := 5,
                     completedAt := none }],
         currentFilter := "all", currentSearchTerm := "", taskIdCounter := 2,
         storage := { tasksKey := some (.parsable
                        [{ id := 1, text := "hi", completed := false, createdAt := 5,
                           completedAt := none }]),
                      counterKey := some 2 } },
       .added { id := 1, text := "hi", completed := false, createdAt := 5,
                completedAt := none }) := by
  refine ⟨⟨by decide, by decide⟩, ?_⟩
  have h := (addTask_spec (mkInitial { tasksKey := none, counterKey := none })
    " hi " 5).2 (by decide) (by decide)
  exact h.trans (by decide)

/-- The counter an app would wake up with from this storage (absent entry
defaults to the constructor's 1), assuming the tasks entry does not throw. -/
def storCounter (st : Storage) : Nat :=
  st.counterKey.getD 1

/-- Trace invariant for C2: the ids issued so far are strictly increasing,
all below the live counter, all below the counter a reload would restore,
and the app never wrote an unparsable tasks entry. -/
structure IdInv (s : AppState) (ids : List Nat) : Prop where
  pw : ids.Pairwise (· < ·)
  lt_counter : ∀ i ∈ ids, i < s.taskIdCounter
  lt_stor : ∀ i ∈ ids, i < storCounter s.storage
  good : s.storage.tasksKey ≠ some StoredTasks.unparsable

theorem applyOp_idInv (op : Op) (s : AppState) (ids : List Nat)
    (h : IdInv s ids) : IdInv (applyOp op s).1 (ids ++ (applyOp op s).2) := by
  obtain ⟨hpw, hcnt, hstor, hgood⟩ := h
  cases op with
  | add text now =>
    by_cases h1 : jsTrim text = ""
    · simpa [applyOp, addTask, h1] using ⟨hpw, hcnt, hstor, hgood⟩
    · by_cases h2 : (jsTrim text).length > 200
      · simpa [applyOp, addTask, h1, h2] using ⟨hpw, hcnt, hstor, hgood⟩
      · refine ⟨?_, ?_, ?_, ?_⟩ <;>
          simp only [applyOp, addTask, h1, h2, if_false, if_neg, saveTasksToStorage,
            storCounter, Option.getD_some]
        · exact List.pairwise_append.mpr
            ⟨hpw, List.pairwise_singleton _ _, fun a ha b hb => by
              simp only [List.mem_singleton] at hb
              exact hb ▸ hcnt a ha⟩
        · intro i hi
          rcases List.mem_append.mp hi with hi | hi
          · exact Nat.lt_succ_of_lt (hcnt i hi)
          · simp only [List.mem_singleton] at hi
            omega
        · intro i hi
          rcases List.mem_append.mp hi with hi | hi
          · exact Nat.lt_succ_of_lt (hcnt i hi)
          · simp only [List.mem_singleton] at hi
            omega
        · simp
  | toggle id now =>
    rcases hfind : s.tasks.find? (fun t => t.id == id) with _ | t
    · simpa [applyOp, toggleTask, hfind] using ⟨hpw, hcnt, hstor, hgood⟩
    · refine ⟨?_, ?_, ?_, ?_⟩ <;>
        simp only [applyOp, toggleTask, hfind, saveTasksToStorage, storCounter,
          Option.getD_some, List.append_nil]
      · exact hpw
      · exact hcnt
      · exact hcnt
      · simp
  | edit id text =>
    by_cases h1 : jsTrim text = ""
    · simpa [applyOp, saveEditTask, h1] using ⟨hpw, hcnt, hstor, hgood⟩
    · by_cases h2 : (jsTrim text).length > 200
      · simpa [applyOp, saveEditTask, h1, h2] using ⟨hpw, hcnt, hstor, hgood⟩
      · rcases hfind : s.tasks.find? (fun t => t.id == id) with _ | t
        · simpa [applyOp, saveEditTask, h1, h2, hfind] using ⟨hpw, hcnt, hstor, hgood⟩
        · refine ⟨?_, ?_, ?_, ?_⟩ <;>
            simp only [applyOp, saveEditTask, h1, h2, if_false, if_neg, hfind,
              saveTasksToStorage, storCounter, Option.getD_some, List.append_nil]
          · exact hpw
          · exact hcnt
          · exact hcnt
          · simp
  | delete id =>
    by_cases hr : (getFilteredTasks s).any (fun t => t.id == id)
    · refine ⟨?_, ?_, ?_, ?_⟩ <;>
        simp only [applyOp, deleteTask, hr, if_pos, deleteTaskLater,
          saveTasksToStorage, storCounter, Option.getD_some, List.append_nil]
      · exact hpw
      · exact hcnt
      · exact hcnt
      · simp
    · simpa [applyOp, deleteTask, hr] using ⟨hpw, hcnt, hstor, hgood⟩
  | setF f =>
    simpa [applyOp, setFilter] using ⟨hpw, hcnt, hstor, hgood⟩
  | setTerm t =>
    simpa [applyOp, setSearchTerm] using ⟨hpw, hcnt, hstor, hgood⟩
  | reload =>
    have hcounter :
        (appStart s.storage).taskIdCounter = storCounter s.storage ∧
        (appStart s.storage).storage = s.storage := by
      rcases ht : s.storage.tasksKey with _ | st
      · rcases hc : s.storage.counterKey with _ | n <;>
          simp [appStart, loadTasksFromStorage, mkInitial, storCounter, ht, hc]
      · cases st with
        | parsable ts =>
          rcases hc : s.storage.counterKey with _ | n <;>
            simp [appStart, loadTasksFromStorage, mkInitial, storCounter, ht, hc]
        | unparsable => exact absurd ht hgood
    refine ⟨?_, ?_, ?_, ?_⟩ <;>
      simp only [applyOp, List.append_nil]
    · exact hpw
    · rw [hcounter.1]
      exact hstor
    · rw [hcounter.2]
      exact hstor
    · rw [hcounter.2]
      exact hgood

theorem runOps_idInv (ops : List Op) (s : AppState) (ids : List Nat)
    (h : IdInv s ids) : IdInv (runOps ops s).1 (ids ++ (runOps ops s).2) := by
  induction ops generalizing s ids with
  | nil => simpa [runOps] using h
  | cons op ops ih =>
    have h2 := applyOp_idInv op s ids h
    have h3 := ih (applyOp op s).1 (ids ++ (applyOp op s).2) h2
    simpa [runOps, List.append_assoc] using h3

/-- C2: along any sequence of user operations on an app started over empty
storage — adds, toggles, edits, deletes, filter and search changes, and full
page reloads (save-restore round trips through `localStorage`) — the task
ids issued by successful adds form a strictly increasing sequence: every new
id is strictly greater than every previously issued id, including ids issued
before a reload. -/
theorem issued_ids_strictly_increasing (ops : List Op) :
    ((runOps ops (appStart { tasksKey := none, counterKey := none })).2).Pairwise (· < ·) := by
  have hinit : IdInv (appStart { tasksKey := none, counterKey := none }) [] := by
    refine ⟨List.Pairwise.nil, ?_, ?_, ?_⟩ <;>
      simp [appStart, loadTasksFromStorage, mkInitial, storCounter]
  have h := runOps_idInv ops _ [] hinit
  simpa using h.pw

/-- C3 counterexample: on a store holding exactly task 1 (rendered, filter
`all`, empty search), `deleteTask 1` returns with the task array still
containing task 1 — the removal and its persistence are postponed to the
300 ms `setTimeout` callback, so the mutation does not happen before the
operation returns. -/
theorem deleteTask_not_synchronous :
    (let t : Task := { id := 1, text := "a", completed := false, createdAt := 0,
                       completedAt := none }
     let s : AppState := { tasks := [t], currentFilter := "all", currentSearchTerm := "",
                           taskIdCounter := 2,
                           storage := { tasksKey := some (.parsable [t]),
                                        counterKey := some 2 } }
     (∃ u ∈ s.tasks, u.id = 1) ∧
     deleteTask 1 s = (s, .scheduled) ∧
     (deleteTask 1 s).1.tasks = [t] ∧
     (deleteTask 1 s).1.storage.tasksKey = some (.parsable [t])) := by
  decide

/-- C3 amended: for a task id that is currently rendered, `deleteTask`
leaves the state untouched at return time and only schedules the removal;
the deferred 300 ms callback is what removes exactly the tasks with that id
(preserving the order of the others) and persists the result. -/
theorem deleteTask_defers_removal (s : AppState) (taskId : Nat)
    (h : ∃ t ∈ getFilteredTasks s, t.id = taskId) :
    (deleteTask taskId s).1 = s ∧
    (deleteTask taskId s).2 = .scheduled ∧
    (∀ t, t ∈ (deleteTaskLater taskId s).tasks ↔ t ∈ s.tasks ∧ t.id ≠ taskId) ∧
    ((deleteTaskLater taskId s).tasks).Sublist s.tasks ∧
    (deleteTaskLater taskId s).storage =
      { tasksKey := some (.parsable ((deleteTaskLater taskId s).tasks)),
        counterKey := some s.taskIdCounter } ∧
    (deleteTaskLater taskId s).taskIdCounter = s.taskIdCounter ∧
    (deleteTaskLater taskId s).currentFilter = s.currentFilter ∧
    (deleteTaskLater taskId s).currentSearchTerm = s.currentSearchTerm := by
  obtain ⟨t0, ht0, hid0⟩ := h
  have hany : (getFilteredTasks s).any (fun t => t.id == taskId) = true :=
    List.any_eq_true.mpr ⟨t0, ht0, by simp [hid0]⟩
  refine ⟨by simp [deleteTask, hany], by simp [deleteTask, hany], ?_, ?_, ?_, ?_, ?_, ?_⟩
  · intro t
    simp [deleteTaskLater, saveTasksToStorage, List.mem_filter]
  · simp only [deleteTaskLater, saveTasksToStorage]
    exact List.filter_sublist s.tasks
  · simp [deleteTaskLater, saveTasksToStorage]
  · simp [deleteTaskLater, saveTasksToStorage]
  · simp [deleteTaskLater, saveTasksToStorage]
  · simp [deleteTaskLater, saveTasksToStorage]

/-- C3 witness: instantiating the amended deferred-removal theorem on a
two-task store and delete of task 2. -/
theorem deleteTask_defers_removal_witness :
    (let t1 : Task := { id := 1, text := "a", completed := false, createdAt := 0,
                        completedAt := none }
     let t2 : Task := { id := 2, text := "b", completed := false, createdAt := 0,
                        completedAt := none }
     let s : AppState := { tasks := [t2, t1], currentFilter := "all",
                           currentSearchTerm := "", taskIdCounter := 3,
                           storage := { tasksKey := none, counterKey := none } }
     (∃ t ∈ getFilteredTasks s, t.id = 2) ∧
     (deleteTask 2 s).1 = s ∧ (deleteTaskLater 2 s).tasks = [t1]) := by
  refine ⟨by decide, ?_, by decide⟩
  exact (deleteTask_defers_removal _ 2 (by decide)).1

/-- C4 counterexample: on the empty store no task has id 1, yet
`toggleTask 1`, `saveEditTask 1 "x"` (valid text) and `deleteTask 1` all
return silently — state unchanged, outcome the fall-through `ignored`
branch, and no warning or error notification — instead of failing with a
`NotFoundError` as the claim states. -/
theorem unknown_id_silent :
    (let s : AppState := mkInitial { tasksKey := none, counterKey := none }
     toggleTask 1 5 s = (s, .ignored) ∧ (toggleTask 1 5 s).2.warns = false ∧
     saveEditTask 1 "x" s = (s, .ignored) ∧ (saveEditTask 1 "x" s).2.warns = false ∧
     deleteTask 1 s = (s, .ignored) ∧ (deleteTask 1 s).2.warns = false) := by
  decide

/-- C4 amended: for every id no task carries, `toggleTask`, `saveEditTask`
with valid text, and `deleteTask` are silent no-ops: each returns the state
unchanged — task sequence, counter, and persisted storage included — with
the `ignored` outcome and no notification of any kind; no `NotFoundError`
exists in the code. -/
theorem unknown_id_noop (s : AppState) (taskId now : Nat) (text : String)
    (h : ∀ t ∈ s.tasks, t.id ≠ taskId)
    (h1 : jsTrim text ≠ "") (h2 : (jsTrim text).length ≤ 200) :
    toggleTask taskId now s = (s, .ignored) ∧
    saveEditTask taskId text s = (s, .ignored) ∧
    deleteTask taskId s = (s, .ignored) := by
  have hfind : s.tasks.find? (fun t => t.id == taskId) = none := by
    rw [List.find?_eq_none]
    intro t ht
    simp [h t ht]
  have h2' : ¬ (jsTrim text).length > 200 := by omega
  refine ⟨by simp [toggleTask, hfind], ?_, ?_⟩
  · rw [saveEditTask]
    simp only [h1, if_false, if_neg, h2', hfind]
  · have hany : (getFilteredTasks s).any (fun t => t.id == taskId) = false := by
      rw [List.any_eq_false]
      intro t ht
      have : t ∈ s.tasks := (getFilteredTasks_sublist s).mem ht
      simp [h t this]
    simp [deleteTask, hany]

/-- C4 witness: a one-task store (task id 1) and the absent id 7. -/
theorem unknown_id_noop_witness :
    (let t : Task := { id := 1, text := "a", completed := false, createdAt := 0,
                       completedAt := none }
     let s : AppState := { tasks := [t], currentFilter := "all", currentSearchTerm := "",
                           taskIdCounter := 2,
                           storage := { tasksKey := some (.parsable [t]),
                                        counterKey := some 2 } }
     (∀ u ∈ s.tasks, u.id ≠ 7) ∧
     toggleTask 7 5 s = (s, .ignored) ∧
     saveEditTask 7 "x" s = (s, .ignored) ∧
     deleteTask 7 s = (s, .ignored)) := by
  refine ⟨by decide, ?_⟩
  have h := unknown_id_noop
    { tasks := [{ id := 1, text := "a", completed := false, createdAt := 0,
                  completedAt := none }],
      currentFilter := "all", currentSearchTerm := "", taskIdCounter := 2,
      storage := { tasksKey := some (.parsable
                     [{ id := 1, text := "a", completed := false, createdAt := 0,
                        completedAt := none }]),
                   counterKey := some 2 } }
    7 5 "x" (by decide) (by decide) (by decide)
  exact ⟨h.1, h.2.1, h.2.2⟩

/-- C5 counterexample: task 1 starts completed with `completedAt = 5`;
toggling it at time 6 and again at time 7 restores `completed = true` but
leaves `completedAt = 7`, not the original 5 — toggling twice does not
return the task to its original `completedAt` state. -/
theorem toggle_twice_not_identity :
    (let t : Task := { id := 1, text := "a", completed := true, createdAt := 0,
                       completedAt := some 5 }
     let s : AppState := { tasks := [t], currentFilter := "all", currentSearchTerm := "",
                           taskIdCounter := 2,
                           storage := { tasksKey := none, counterKey := none } }
     let s2 := (toggleTask 1 7 ((toggleTask 1 6 s).1)).1
     (s2.tasks.find? (fun u => u.id == 1)).map Task.completed = some true ∧
     (s2.tasks.find? (fun u => u.id == 1)).map Task.completedAt = some (some 7) ∧
     (s.tasks.find? (fun u => u.id == 1)).map Task.completedAt = some (some 5) ∧
     some (some 7) ≠ some (some (5 : Nat))) := by
  decide

/-- C5 amended: toggling a present task twice (at times `now1` then `now2`)
always restores `completed`; `completedAt` comes back to its original value
only when the task was pending with no `completedAt` — for an initially
completed task it is refreshed to `now2`, the time of the second toggle,
rather than restored. -/
theorem toggle_twice_amended (s : AppState) (taskId now1 now2 : Nat) (t : Task)
    (h : s.tasks.find? (fun u => u.id == taskId) = some t) :
    ((toggleTask taskId now2 ((toggleTask taskId now1 s).1)).1).tasks.find?
        (fun u => u.id == taskId) =
      some { t with completedAt := if t.completed then some now2 else none } := by
  have hid : ∀ (m : Nat) (u : Task), (toggleUpdate m u).id = u.id := fun _ _ => rfl
  have step : ∀ (s' : AppState) (m : Nat) (u : Task),
      s'.tasks.find? (fun v => v.id == taskId) = some u →
      (toggleTask taskId m s').1.tasks =
        updateFirstTask taskId (toggleUpdate m) s'.tasks := by
    intro s' m u hu
    simp [toggleTask, hu, saveTasksToStorage]
  have hfind1 : ((toggleTask taskId now1 s).1.tasks).find? (fun u => u.id == taskId) =
      some (toggleUpdate now1 t) := by
    rw [step s now1 t h, find?_updateFirstTask _ _ _ (hid now1), h]
    rfl
  rw [step _ now2 _ hfind1, find?_updateFirstTask _ _ _ (hid now2), hfind1]
  cases t with
  | mk id text completed createdAt completedAt =>
    cases completed <;> rfl

/-- C5 witness: a pending task with no `completedAt` really does come back
to exactly its original state after two toggles. -/
theorem toggle_twice_amended_witness :
    (let t : Task := { id := 1, text := "a", completed := false, createdAt := 0,
                       completedAt := none }
     let s : AppState := { tasks := [t], currentFilter := "all", currentSearchTerm := "",
                           taskIdCounter := 2,
                           storage := { tasksKey := none, counterKey := none } }
     s.tasks.find? (fun u => u.id == 1) = some t ∧
     ((toggleTask 1 7 ((toggleTask 1 6 s).1)).1).tasks.find? (fun u => u.id == 1) =
       some t) := by
  refine ⟨by decide, ?_⟩
  have h := toggle_twice_amended
    { tasks := [{ id := 1, text := "a", completed := false, createdAt := 0,
                  completedAt := none }],
      currentFilter := "all", currentSearchTerm := "", taskIdCounter := 2,
      storage := { tasksKey := none, counterKey := none } }
    1 6 7
    { id := 1, text := "a", completed := false, createdAt := 0, completedAt := none }
    (by decide)
  exact h.trans (by decide)

/-- C6: with the filter one of `all`/`completed`/`pending`, the filtered
view returns exactly the tasks passing both the completion filter and the
search filter (case-insensitive substring: lowercased text against the
stored lowercased term, empty term passing everything) — the code's two
sequential `filter` passes equal one pass of the spec's combined predicate —
in the store's insertion order (the view is a sublist of the task array, and
the store itself is untouched: the function only reads the state); under
`pending` it never contains a completed task and under `completed` never a
pending one. -/
theorem getFilteredTasks_spec (s : AppState)
    (h : s.currentFilter = "all" ∨ s.currentFilter = "completed" ∨
         s.currentFilter = "pending") :
    getFilteredTasks s = s.tasks.filter (fun t => specViewPass s.currentFilter s.currentSearchTerm t) ∧
    ((getFilteredTasks s).Sublist s.tasks) ∧
    (s.currentFilter = "pending" → ∀ t ∈ getFilteredTasks s, t.completed = false) ∧
    (s.currentFilter = "completed" → ∀ t ∈ getFilteredTasks s, t.completed = true) := by
  have heq : getFilteredTasks s =
      s.tasks.filter (fun t => specViewPass s.currentFilter s.currentSearchTerm t) := by
    rcases h with h | h | h <;> by_cases ht : s.currentSearchTerm = "" <;>
      simp [getFilteredTasks, specViewPass, h, ht, List.filter_filter, Bool.and_comm]
  refine ⟨heq, ?_, ?_, ?_⟩
  · exact getFilteredTasks_sublist s
  · intro hp t htm
    rw [heq, List.mem_filter] at htm
    have h2 := htm.2
    rw [hp] at h2
    simp [specViewPass] at h2
    exact h2.1
  · intro hp t htm
    rw [heq, List.mem_filter] at htm
    have h2 := htm.2
    rw [hp] at h2
    simp [specViewPass] at h2
    exact h2.1

/-- C6 witness: filter `pending`, search term `b`: of three tasks only the
pending one whose lowercased text contains `b` survives. -/
theorem getFilteredTasks_spec_witness :
    (let t1 : Task := { id := 1, text := "Abc", completed := false, createdAt := 0,
                        completedAt := none }
     let t2 : Task := { id := 2, text := "b", completed := true, createdAt := 0,
                        completedAt := some 1 }
     let t3 : Task := { id := 3, text := "xyz", completed := false, createdAt := 0,
                        completedAt := none }
     let s : AppState := { tasks := [t3, t2, t1], currentFilter := "pending",
                           currentSearchTerm := "b", taskIdCounter := 4,
                           storage := { tasksKey := none, counterKey := none } }
     (s.currentFilter = "all" ∨ s.currentFilter = "completed" ∨
      s.currentFilter = "pending") ∧
     getFilteredTasks s = s.tasks.filter (fun t => specViewPass s.currentFilter s.currentSearchTerm t) ∧
     getFilteredTasks s = [t1]) := by
  refine ⟨by decide, ?_, by decide⟩
  exact (getFilteredTasks_spec
    { tasks := [{ id := 3, text := "xyz", completed := false, createdAt := 0,
                  completedAt := none },
                { id := 2, text := "b", completed := true, createdAt := 0,
                  completedAt := some 1 },
                { id := 1, text := "Abc", completed := false, createdAt := 0,
                  completedAt := none }],
      currentFilter := "pending", currentSearchTerm := "b", taskIdCounter := 4,
      storage := { tasksKey := none, counterKey := none } }
    (by decide)).1

/-- C7: editing any task with text that trims to empty or to more than 200
characters surfaces a validation warning and leaves the whole state — that
task's text, every other task, counter, storage — unchanged. -/
theorem saveEditTask_invalid (s : AppState) (taskId : Nat) (newText : String)
    (h : jsTrim newText = "" ∨ 200 < (jsTrim newText).length) :
    (saveEditTask taskId newText s).1 = s ∧
    (saveEditTask taskId newText s).2.warns = true := by
  rcases h with h | h
  · simp [saveEditTask, h, EditResult.warns]
  · have hne : ¬ jsTrim newText = "" := by
      intro he
      rw [he] at h
      exact absurd h (by decide)
    rw [saveEditTask]
    simp [hne, h, EditResult.warns]

/-- C7 witness: editing task 1 with the all-whitespace text `" "` warns and
changes nothing. -/
theorem saveEditTask_invalid_witness :
    (let t : Task := { id := 1, text := "a", completed := false, createdAt := 0,
                       completedAt := none }
     let s : AppState := { tasks := [t], currentFilter := "all", currentSearchTerm := "",
                           taskIdCounter := 2,
                           storage := { tasksKey := some (.parsable [t]),
                                        counterKey := some 2 } }
     (jsTrim " " = "" ∨ 200 < (jsTrim " ").length) ∧
     (saveEditTask 1 " " s).1 = s ∧
     (saveEditTask 1 " " s).2.warns = true) := by
  refine ⟨Or.inl (by decide), ?_⟩
  exact saveEditTask_invalid
    { tasks := [{ id := 1, text := "a", completed := false, createdAt := 0,
                  completedAt := none }],
      currentFilter := "all", currentSearchTerm := "", taskIdCounter := 2,
      storage := { tasksKey := some (.parsable
                     [{ id := 1, text := "a", completed := false, createdAt := 0,
                        completedAt := none }]),
                   counterKey := some 2 } }
    1 " " (Or.inl (by decide))

/-- C8 counterexample: `setFilter "bogus"` on a fresh store (filter `all`)
does not fail — there is no validation — and the current filter becomes
`"bogus"` rather than staying unchanged. -/
theorem setFilter_unvalidated :
    (setFilter "bogus" (mkInitial { tasksKey := none, counterKey := none })).currentFilter
      = "bogus" ∧
    ¬("bogus" = "all" ∨ "bogus" = "completed" ∨ "bogus" = "pending") ∧
    (mkInitial { tasksKey := none, counterKey := none }).currentFilter = "all" := by
  decide

/-- C8 amended: `setFilter` stores any value unconditionally — recognized or
not — with no error and no other state change; any value outside
`completed`/`pending` (so also every unrecognized one) makes the filtered
view behave exactly like `all`. -/
theorem setFilter_amended (s : AppState) (f : String) :
    (setFilter f s).currentFilter = f ∧
    (setFilter f s).tasks = s.tasks ∧
    (setFilter f s).taskIdCounter = s.taskIdCounter ∧
    (setFilter f s).currentSearchTerm = s.currentSearchTerm ∧
    (setFilter f s).storage = s.storage ∧
    (f ≠ "completed" → f ≠ "pending" →
      getFilteredTasks (setFilter f s) = getFilteredTasks (setFilter "all" s)) := by
  refine ⟨rfl, rfl, rfl, rfl, rfl, ?_⟩
  intro h1 h2
  simp [getFilteredTasks, setFilter, h1, h2]

/-- C8 witness: `setFilter "bogus"` filters like `all` on a two-task store. -/
theorem setFilter_amended_witness :
    (let t1 : Task := { id := 1, text := "a", completed := true, createdAt := 0,
                        completedAt := some 1 }
     let t2 : Task := { id := 2, text := "b", completed := false, createdAt := 0,
                        completedAt := none }
     let s : AppState := { tasks := [t2, t1], currentFilter := "pending",
                           currentSearchTerm := "", taskIdCounter := 3,
                           storage := { tasksKey := none, counterKey := none } }
     ("bogus" ≠ "completed" ∧ "bogus" ≠ "pending") ∧
     (setFilter "bogus" s).currentFilter = "bogus" ∧
     getFilteredTasks (setFilter "bogus" s) = getFilteredTasks (setFilter "all" s) ∧
     getFilteredTasks (setFilter "bogus" s) = [t2, t1]) := by
  refine ⟨⟨by decide, by decide⟩, ?_, ?_, by decide⟩
  · exact (setFilter_amended
      { tasks := [{ id := 2, text := "b", completed := false, createdAt := 0,
                    completedAt := none },
                  { id := 1, text := "a", completed := true, createdAt := 0,
                    completedAt := some 1 }],
        currentFilter := "pending", currentSearchTerm := "", taskIdCounter := 3,
        storage := { tasksKey := none, counterKey := none } }
      "bogus").1
  · exact (setFilter_amended
      { tasks := [{ id := 2, text := "b", completed := false, createdAt := 0,
                    completedAt := none },
                  { id := 1, text := "a", completed := true, createdAt := 0,
                    completedAt := some 1 }],
        currentFilter := "pending", currentSearchTerm := "", taskIdCounter := 3,
        storage := { tasksKey := none, counterKey := none } }
      "bogus").2.2.2.2.2 (by decide) (by decide)

/-- C9 counterexample: storage with no tasks entry but a leftover counter
entry of 7 is an "absent data" load outcome, yet hydration keeps counter 7
— not the claimed fallback to 1 — and surfaces no warning at all (no
notification is shown on this path). -/
theorem load_absent_keeps_counter :
    loadTasksFromStorage (mkInitial { tasksKey := none, counterKey := some 7 }) =
      ({ tasks := [], currentFilter := "all", currentSearchTerm := "",
         taskIdCounter := 7,
         storage := { tasksKey := none, counterKey := some 7 } }, []) ∧
    (7 : Nat) ≠ 1 := by
  decide

/-- C9 amended: only a load that throws (unparsable stored tasks) resets to
the empty list with counter 1 and surfaces the failure as an error
notification; absent entries are silently skipped, keeping the constructor
defaults except that a present counter entry is adopted as-is; parsable
stored tasks are adopted as-is with no notification.  The store remains
usable in every case. -/
theorem loadTasksFromStorage_amended (st : Storage) :
    (st.tasksKey = some .unparsable →
      loadTasksFromStorage (mkInitial st) =
        (mkInitial st, [{ message := "Failed to load saved tasks!", kind := .error }])) ∧
    (st.tasksKey = none →
      (loadTasksFromStorage (mkInitial st)).1.tasks = [] ∧
      (loadTasksFromStorage (mkInitial st)).1.taskIdCounter = st.counterKey.getD 1 ∧
      (loadTasksFromStorage (mkInitial st)).2 = []) ∧
    (∀ ts, st.tasksKey = some (.parsable ts) →
      (loadTasksFromStorage (mkInitial st)).1.tasks = ts ∧
      (loadTasksFromStorage (mkInitial st)).1.taskIdCounter = st.counterKey.getD 1 ∧
      (loadTasksFromStorage (mkInitial st)).2 = []) := by
  refine ⟨?_, ?_, ?_⟩
  · intro h
    simp [loadTasksFromStorage, mkInitial, h]
  · intro h
    rcases hc : st.counterKey with _ | n <;>
      simp [loadTasksFromStorage, mkInitial, h, hc]
  · intro ts h
    rcases hc : st.counterKey with _ | n <;>
      simp [loadTasksFromStorage, mkInitial, h, hc]

/-- C9 witness: hydrating over an unparsable tasks entry resets to the
defaults and shows the error notification. -/
theorem loadTasksFromStorage_amended_witness :
    ((some StoredTasks.unparsable : Option StoredTasks) = some StoredTasks.unparsable) ∧
    loadTasksFromStorage (mkInitial { tasksKey := some .unparsable, counterKey := some 7 }) =
      (mkInitial { tasksKey := some .unparsable, counterKey := some 7 },
       [{ message := "Failed to load saved tasks!", kind := .error }]) := by
  refine ⟨rfl, ?_⟩
  exact (loadTasksFromStorage_amended
    { tasksKey := some .unparsable, counterKey := some 7 }).1 rfl

/-- C10: frame conditions, under unique ids and a present target id.
`toggleTask` rewrites the task list pointwise, applying `toggleUpdate` —
which touches only `completed`/`completedAt`, never `id`, `text`,
`createdAt` — to the one matching task and leaving every other task in
place and in order; `saveEditTask` with valid text likewise replaces only
the matching task's `text`; the deferred delete keeps every task with a
different id, in order.  None of the three changes the counter, the current
filter, or the search term. -/
theorem mutation_frame (s : AppState) (taskId now : Nat) (newText : String)
    (hnd : (s.tasks.map Task.id).Nodup)
    (hpres : ∃ t ∈ s.tasks, t.id = taskId)
    (h1 : jsTrim newText ≠ "") (h2 : (jsTrim newText).length ≤ 200) :
    ((toggleTask taskId now s).1.tasks =
       s.tasks.map (fun t => if t.id = taskId then toggleUpdate now t else t)) ∧
    (toggleTask taskId now s).1.taskIdCounter = s.taskIdCounter ∧
    (toggleTask taskId now s).1.currentFilter = s.currentFilter ∧
    (toggleTask taskId now s).1.currentSearchTerm = s.currentSearchTerm ∧
    (∀ t, (toggleUpdate now t).id = t.id ∧ (toggleUpdate now t).text = t.text ∧
          (toggleUpdate now t).createdAt = t.createdAt) ∧
    ((saveEditTask taskId newText s).1.tasks =
       s.tasks.map (fun t => if t.id = taskId then { t with text := jsTrim newText }
                    else t)) ∧
    (saveEditTask taskId newText s).1.taskIdCounter = s.taskIdCounter ∧
    (saveEditTask taskId newText s).1.currentFilter = s.currentFilter ∧
    (saveEditTask taskId newText s).1.currentSearchTerm = s.currentSearchTerm ∧
    (∀ t ∈ s.tasks, t.id ≠ taskId → t ∈ (deleteTaskLater taskId s).tasks) ∧
    ((deleteTaskLater taskId s).tasks).Sublist s.tasks ∧
    (deleteTaskLater taskId s).taskIdCounter = s.taskIdCounter ∧
    (deleteTaskLater taskId s).currentFilter = s.currentFilter ∧
    (deleteTaskLater taskId s).currentSearchTerm = s.currentSearchTerm := by
  obtain ⟨t0, ht0, hid0⟩ := hpres
  have hfind : ∃ u, s.tasks.find? (fun t => t.id == taskId) = some u := by
    rw [← Option.isSome_iff_exists, List.find?_isSome]
    exact ⟨t0, ht0, by simp [hid0]⟩
  obtain ⟨u, hu⟩ := hfind
  have h2' : ¬ (jsTrim newText).length > 200 := by omega
  refine ⟨?_, ?_, ?_, ?_, ?_, ?_, ?_, ?_, ?_, ?_, ?_, ?_, ?_, ?_⟩
  · rw [show (toggleTask taskId now s).1.tasks =
        updateFirstTask taskId (toggleUpdate now) s.tasks by
          simp [toggleTask, hu, saveTasksToStorage]]
    exact updateFirstTask_eq_map taskId _ s.tasks hnd
  · simp [toggleTask, hu, saveTasksToStorage]
  · simp [toggleTask, hu, saveTasksToStorage]
  · simp [toggleTask, hu, saveTasksToStorage]
  · exact fun t => ⟨rfl, rfl, rfl⟩
  · rw [show (saveEditTask taskId newText s).1.tasks =
        updateFirstTask taskId (fun v => { v with text := jsTrim newText }) s.tasks by
          rw [saveEditTask]
          simp [h1, h2', hu, saveTasksToStorage]]
    exact updateFirstTask_eq_map taskId _ s.tasks hnd
  · rw [saveEditTask]
    simp [h1, h2', hu, saveTasksToStorage]
  · rw [saveEditTask]
    simp [h1, h2', hu, saveTasksToStorage]
  · rw [saveEditTask]
    simp [h1, h2', hu, saveTasksToStorage]
  · intro t ht hne
    simp [deleteTaskLater, saveTasksToStorage, List.mem_filter, ht, hne]
  · simp only [deleteTaskLater, saveTasksToStorage]
    exact List.filter_sublist s.tasks
  · simp [deleteTaskLater, saveTasksToStorage]
  · simp [deleteTaskLater, saveTasksToStorage]
  · simp [deleteTaskLater, saveTasksToStorage]

/-- C10 witness: a two-task store, operating on task 1: toggling flips only
task 1, editing rewrites only task 1's text, deleting keeps task 2, and
counter/filter/search stay put. -/
theorem mutation_frame_witness :
    (let t1 : Task := { id := 1, text := "a", completed := false, createdAt := 0,
                        completedAt := none }
     let t2 : Task := { id := 2, text := "b", completed := false, createdAt := 0,
                        completedAt := none }
     let s : AppState := { tasks := [t2, t1], currentFilter := "all",
                           currentSearchTerm := "", taskIdCounter := 3,
                           storage := { tasksKey := none, counterKey := none } }
     ((s.tasks.map Task.id).Nodup ∧ (∃ t ∈ s.tasks, t.id = 1) ∧
      jsTrim "c" ≠ "" ∧ (jsTrim "c").length ≤ 200) ∧
     (toggleTask 1 9 s).1.tasks =
       s.tasks.map (fun t => if t.id = 1 then toggleUpdate 9 t else t) ∧
     (toggleTask 1 9 s).1.tasks = [t2, { t1 with completed := true, completedAt := some 9 }]) := by
  refine ⟨⟨by decide, by decide, by decide, by decide⟩, ?_, by decide⟩
  exact (mutation_frame
    { tasks := [{ id := 2, text := "b", completed := false, createdAt := 0,
                  completedAt := none },
                { id := 1, text := "a", completed := false, createdAt := 0,
                  completedAt := none }],
      currentFilter := "all", currentSearchTerm := "", taskIdCounter := 3,
      storage := { tasksKey := none, counterKey := none } }
    1 9 "c" (by decide) (by decide) (by decide) (by decide)).1

end TodoApp
